import Mathlib

/-!
Verification of the PagerDuty schedule resource
(`src/pagerduty/resource_pagerduty_schedule.go`).

Shallow embedding conventions:

* Instants of time are modelled as natural numbers counting nanoseconds
  (Go's `time.Time` resolution).  A serialized RFC 3339 timestamp carries
  only whole seconds, so serialization is division by `nanosPerSecond`
  and parsing multiplies back; sub-second precision is lost exactly as in
  `time.Now().Format(time.RFC3339)`.
* A layer's `end` attribute is modelled post-parse as `Option Nat`
  (seconds): `none` models the empty string / nil pointer ("the layer
  does not end"), `some ts` a well-formed RFC 3339 string denoting the
  instant `ts` seconds (the schema validates RFC 3339 on input and the
  remote service returns well-formed timestamps).
* Go maps built by the flatten helpers are modelled as association lists
  of key/value pairs, values in the sum type `FlatValue`.
* Fallible Go code returns `Option`/`Except`; a `none` from a function
  that models a Go function that can panic marks the panic.
-/

namespace PagerdutySchedule

/-- Nanoseconds in one second (`time.Time` keeps nanoseconds; an RFC 3339
string produced by `Format(time.RFC3339)` keeps whole seconds). -/
def nanosPerSecond : Nat := 1000000000

/-- `time.Now().Format(time.RFC3339)`: serializing an instant truncates it
to whole seconds. -/
def formatRFC3339 (t : Nat) : Nat := t / nanosPerSecond

/-- Modelled from the spec: `timeToUTC` is declared outside `src/` (a
utility of the provider package).  Per spec §4.1 it parses an RFC 3339
timestamp, converts it to UTC and yields the denoted instant; on
instants-as-numbers the UTC conversion is the identity, so parsing a
whole-second timestamp yields its instant in nanoseconds. -/
def timeToUTC (ts : Nat) : Nat := ts * nanosPerSecond

/-- `pagerduty.UserReferenceWrapper`: a user reference as built by
`expandScheduleLayers` (`Type` is always `"user"`). -/
structure UserReference where
  id : String
  type : String
deriving DecidableEq

/-- `pagerduty.Restriction` as built by `expandScheduleLayers` /
read back by `flattenScheduleLayers`. -/
structure Restriction where
  type : String
  startTimeOfDay : String
  startDayOfWeek : Int
  durationSeconds : Int
deriving DecidableEq

/-- `pagerduty.ScheduleLayer` in its expanded form (the form produced by
`expandScheduleLayers` and manipulated by the update loop).  The field
`endTs` models `End *string` post-parse (`none` for nil / empty string);
`rotationVirtualStart` is already normalized to UTC by `timeToUTC`;
`renderedCoveragePercentage` is the computed number echoed by the remote
service, abstracted to `Int`. -/
structure ScheduleLayer where
  id : String
  name : String
  start : String
  endTs : Option Nat
  rotationVirtualStart : Nat
  rotationTurnLengthSeconds : Int
  users : List UserReference
  restrictions : List Restriction
  renderedCoveragePercentage : Int
deriving DecidableEq

/-- The inner membership test of the update loop (lines 325–332): layer
`o` of the old list is `found` when some new layer has the same `ID`. -/
def layerIdFound (nsl : List ScheduleLayer) (o : ScheduleLayer) : Bool :=
  nsl.any (fun n => o.id == n.id)

/-- Lines 335–343: a removed layer gets its `End` set to the serialized
form of `timeToUTC(time.Now().Format(time.RFC3339))`; every other field
is kept. -/
def setLayerEnd (now : Nat) (o : ScheduleLayer) : ScheduleLayer :=
  { o with endTs := some (formatRFC3339 now) }

/-- The layer write set built by `resourcePagerDutyScheduleUpdate`
(lines 311–345): `schedule.ScheduleLayers` starts as the expansion of the
new configuration (`nsl`), and every old layer (`osl`) whose identifier
is not found among the new layers is appended with its end set to the
current normalized instant. -/
def scheduleUpdateLayerWriteSet (nsl osl : List ScheduleLayer) (now : Nat) :
    List ScheduleLayer :=
  nsl ++ (osl.filter (fun o => ! layerIdFound nsl o)).map (setLayerEnd now)

/-- Values stored in the Go maps `map[string]interface{}` that the
flatten helpers build. -/
inductive FlatValue where
  | str : String → FlatValue
  | int : Int → FlatValue
  | nat : Nat → FlatValue
deriving DecidableEq

/-- Modelled from the spec: `renderRoundedPercentage` is declared outside
`src/`; it renders the computed coverage number as a string.  None of the
claims depends on its output format, so the rendering is `toString`. -/
def renderRoundedPercentage (p : Int) : String := toString p

/-- The restriction map built at lines 521–533: three unconditional keys
plus `start_day_of_week`, present exactly when the value is `> 0`
(lines 528–530). -/
def flattenRestriction (slr : Restriction) : List (String × FlatValue) :=
  [("duration_seconds", FlatValue.int slr.durationSeconds),
   ("start_time_of_day", FlatValue.str slr.startTimeOfDay),
   ("type", FlatValue.str slr.type)] ++
  (if slr.startDayOfWeek > 0 then
    [("start_day_of_week", FlatValue.int slr.startDayOfWeek)]
  else [])

/-- The layer map built at lines 501–535, as a structure (fixed key set). -/
structure FlatScheduleLayer where
  id : String
  name : String
  endField : Option Nat
  start : String
  rotationVirtualStart : Nat
  rotationTurnLengthSeconds : Int
  renderedCoveragePercentage : String
  users : List String
  restriction : List (List (String × FlatValue))
deriving DecidableEq

/-- Lines 501–535: the map built for one kept layer. -/
def flattenScheduleLayer (sl : ScheduleLayer) : FlatScheduleLayer :=
  { id := sl.id
    name := sl.name
    endField := sl.endTs
    start := sl.start
    rotationVirtualStart := sl.rotationVirtualStart
    rotationTurnLengthSeconds := sl.rotationTurnLengthSeconds
    renderedCoveragePercentage :=
      renderRoundedPercentage sl.renderedCoveragePercentage
    users := sl.users.map (fun slu => slu.id)
    restriction := sl.restrictions.map flattenRestriction }

/-- Lines 490–499: a layer is skipped when its `end` is non-empty and
`time.Now().UTC().After(end)` holds — `After` is Go's strict order, so
the test is `end < now`. -/
def layerIsEnded (now : Nat) (sl : ScheduleLayer) : Bool :=
  match sl.endTs with
  | none => false
  | some ts => decide (timeToUTC ts < now)

/-- `flattenScheduleLayers` (lines 483–548): drop the ended layers, build
the map of each survivor in remote order, then reverse the result
(lines 541–545). -/
def flattenScheduleLayers (now : Nat) (v : List ScheduleLayer) :
    List FlatScheduleLayer :=
  ((v.filter (fun sl => ! layerIsEnded now sl)).map flattenScheduleLayer).reverse

/-- C1: the update write set contains every desired layer unchanged plus
exactly the prior layers whose identifier does not occur among the
desired identifiers; each of those carries `end` set to the normalized
current timestamp, which is at most the instant the reconciliation was
invoked. -/
theorem scheduleUpdateLayerWriteSet_spec (nsl osl : List ScheduleLayer) (now : Nat) :
    (∀ l : ScheduleLayer,
      l ∈ scheduleUpdateLayerWriteSet nsl osl now ↔
        l ∈ nsl ∨ ∃ o, o ∈ osl ∧ layerIdFound nsl o = false ∧ l = setLayerEnd now o) ∧
    (∀ o : ScheduleLayer, (setLayerEnd now o).endTs = some (formatRFC3339 now)) ∧
    timeToUTC (formatRFC3339 now) ≤ now := by
  refine ⟨fun l => ?_, fun o => rfl, Nat.div_mul_le_self now nanosPerSecond⟩
  constructor
  · intro h
    rcases List.mem_append.mp h with h1 | h2
    · exact Or.inl h1
    · rcases List.mem_map.mp h2 with ⟨o, ho, rfl⟩
      rcases List.mem_filter.mp ho with ⟨ho1, ho2⟩
      exact Or.inr ⟨o, ho1, by simpa using ho2, rfl⟩
  · intro h
    rcases h with h1 | ⟨o, ho, hnf, rfl⟩
    · exact List.mem_append.mpr (Or.inl h1)
    · exact List.mem_append.mpr
        (Or.inr (List.mem_map.mpr ⟨o, List.mem_filter.mpr ⟨ho, by simp [hnf]⟩, rfl⟩))

/-- Witness for C1 at the concrete instant `5` ns. -/
theorem scheduleUpdateLayerWriteSet_spec_witness :
    timeToUTC (formatRFC3339 5) ≤ 5 :=
  (scheduleUpdateLayerWriteSet_spec [] [] 5).2.2

/-- C2 (amended): the materialized view drops exactly the layers whose
`end` is non-empty and whose normalized end instant is strictly before
the current time — a layer with no end, or with end now or in the
future, is kept — and lists the kept layers in reverse of the remote
order. -/
theorem flattenScheduleLayers_spec (now : Nat) (v : List ScheduleLayer) :
    (flattenScheduleLayers now v).reverse =
      (v.filter (fun sl => ! layerIsEnded now sl)).map flattenScheduleLayer ∧
    ∀ sl : ScheduleLayer,
      (! layerIsEnded now sl) = true ↔
        sl.endTs = none ∨ ∃ ts, sl.endTs = some ts ∧ now ≤ timeToUTC ts := by
  refine ⟨List.reverse_reverse _, fun sl => ?_⟩
  cases h : sl.endTs with
  | none => simp [layerIsEnded, h]
  | some ts => simp [layerIsEnded, h, Nat.not_lt]

/-- Witness for C2 at a concrete input: a layer with no end is kept. -/
theorem flattenScheduleLayers_spec_witness :
    (flattenScheduleLayers 7 []).reverse =
      (([] : List ScheduleLayer).filter (fun sl => ! layerIsEnded 7 sl)).map
        flattenScheduleLayer :=
  (flattenScheduleLayers_spec 7 []).1

/-- A concrete remote layer whose normalized end instant equals the
current instant of the read. -/
def layerEndingNow : ScheduleLayer :=
  { id := "L1"
    name := "layer-1"
    start := "2020-01-01T00:00:00Z"
    endTs := some 100
    rotationVirtualStart := 0
    rotationTurnLengthSeconds := 3600
    users := []
    restrictions := []
    renderedCoveragePercentage := 0 }

/-- C2 counterexample: this layer has a non-empty `end` whose normalized
instant is less than or equal to the current time, yet the materialized
view keeps it — `time.Now().UTC().After(end)` is strict, so the claimed
"≤ now is dropped" boundary is wrong at equality. -/
theorem flattenScheduleLayers_keeps_layer_ending_now :
    (∃ ts, layerEndingNow.endTs = some ts ∧ timeToUTC ts ≤ timeToUTC 100) ∧
    flattenScheduleLayers (timeToUTC 100) [layerEndingNow] =
      [flattenScheduleLayer layerEndingNow] := by
  exact ⟨⟨100, rfl, Nat.le_refl _⟩, rfl⟩

/-- C8: the read-back restriction map carries the key
`start_day_of_week` exactly when the restriction's value is positive; a
zero (or negative) value leaves the key out entirely. -/
theorem flattenRestriction_start_day_of_week_key (slr : Restriction) :
    ("start_day_of_week" ∈ (flattenRestriction slr).map Prod.fst) ↔
      slr.startDayOfWeek > 0 := by
  by_cases h : slr.startDayOfWeek > 0 <;> simp [flattenRestriction, h]

/-- Witness for C8 at a concrete restriction. -/
theorem flattenRestriction_start_day_of_week_key_witness :
    ("start_day_of_week" ∈
        (flattenRestriction
          { type := "weekly_restriction"
            startTimeOfDay := "08:00:00"
            startDayOfWeek := 3
            durationSeconds := 7200 }).map Prod.fst) ↔
      (3 : Int) > 0 :=
  flattenRestriction_start_day_of_week_key _

/-- The error value inspected by the delete retry loop (lines 397–413).
`isAPIError` models the type assertion `err.(*pagerduty.Error)`;
`statusCode` the HTTP status; `renderedErrors` the string
`fmt.Sprintf("%v", e.Errors)` of the structured error list. -/
structure DeleteError where
  isAPIError : Bool
  statusCode : Nat
  renderedErrors : String
deriving DecidableEq

/-- Modelled from the spec: `isErrCode` is declared outside `src/`; per
spec §4.4/§7 it distinguishes HTTP statuses of remote errors, true
exactly when the error is a PagerDuty API error carrying the given
status code. -/
def isErrCode (e : DeleteError) (code : Nat) : Bool :=
  e.isAPIError && e.statusCode == code

/-- The exact conflict payload matched at line 403 (rendered by Go as a
bracketed list). -/
def scheduleInUseMessage : String :=
  "[Schedule can\x27t be deleted if it\x27s being used by escalation policies]"

/-- What the retry callback does with a failed `Schedules.Delete`. -/
inductive DeleteAttemptAction where
  | retryable
  | nonRetryable
  | compensateThenRetry
deriving DecidableEq

/-- Lines 397–413: a non-400 failure is retryable; a 400 failure whose
payload is not the exact in-use message (or which is not a PagerDuty API
error) is non-retryable; a 400 failure with that payload triggers
`dissociateScheduleFromEPs` and is then returned as retryable. -/
def classifyScheduleDeleteError (e : DeleteError) : DeleteAttemptAction :=
  if ! isErrCode e 400 then .retryable
  else if ! e.isAPIError || e.renderedErrors ≠ scheduleInUseMessage then .nonRetryable
  else .compensateThenRetry

/-- C3: for a failure reported by the API, any status other than 400 is
retried; a 400 whose payload differs from the exact in-use message fails
as non-retryable; a 400 with that payload runs the dissociation
compensation and retries the delete. -/
theorem classifyScheduleDeleteError_spec (e : DeleteError) (hapi : e.isAPIError = true) :
    (e.statusCode ≠ 400 → classifyScheduleDeleteError e = .retryable) ∧
    (e.statusCode = 400 → e.renderedErrors ≠ scheduleInUseMessage →
      classifyScheduleDeleteError e = .nonRetryable) ∧
    (e.statusCode = 400 → e.renderedErrors = scheduleInUseMessage →
      classifyScheduleDeleteError e = .compensateThenRetry) := by
  refine ⟨fun h => ?_, fun h hm => ?_, fun h hm => ?_⟩
  · simp [classifyScheduleDeleteError, isErrCode, hapi, h]
  · simp [classifyScheduleDeleteError, isErrCode, hapi, h, hm]
  · simp [classifyScheduleDeleteError, isErrCode, hapi, h, hm]

/-- Witness for C3: a concrete 429-class failure is retryable, a 400
with the in-use payload compensates, a 400 with another payload fails. -/
theorem classifyScheduleDeleteError_spec_witness :
    classifyScheduleDeleteError ⟨true, 429, "[rate limited]"⟩ = .retryable ∧
    classifyScheduleDeleteError ⟨true, 400, "[other]"⟩ = .nonRetryable ∧
    classifyScheduleDeleteError ⟨true, 400, scheduleInUseMessage⟩ = .compensateThenRetry :=
  ⟨(classifyScheduleDeleteError_spec ⟨true, 429, "[rate limited]"⟩ rfl).1 (by decide),
   (classifyScheduleDeleteError_spec ⟨true, 400, "[other]"⟩ rfl).2.1 rfl (by decide),
   (classifyScheduleDeleteError_spec ⟨true, 400, scheduleInUseMessage⟩ rfl).2.2 rfl rfl⟩

/-- The first rejection of `CustomizeDiff` (lines 28–35) that applies to
one restriction: `start_day_of_week` must be zero and
`duration_seconds` strictly below `3600*24` for a `daily_restriction`.
(The loops run one index past the end of each list; the extra index
reads zero values from the diff and triggers neither check, so the
validation is equivalent to checking the actual restrictions.) -/
def validateScheduleRestriction (r : Restriction) : Option String :=
  if r.type == "daily_restriction" && r.startDayOfWeek != 0 then
    some "start_day_of_week must only be set for a weekly_restriction schedule restriction type"
  else if r.type == "daily_restriction" && r.durationSeconds ≥ 3600 * 24 then
    some "duration_seconds for a daily_restriction schedule restriction type must be shorter than a day"
  else none

/-- `CustomizeDiff` over the whole configuration: layers in order, each
layer's restrictions in order, first failing check wins. -/
def customizeDiffSchedule (layers : List (List Restriction)) : Option String :=
  layers.flatten.findSome? validateScheduleRestriction

/-- Any restriction failing the per-restriction check makes the whole
`CustomizeDiff` fail. -/
theorem customizeDiffSchedule_rejects {layers : List (List Restriction)}
    {r : Restriction} (hmem : r ∈ layers.flatten)
    (hr : validateScheduleRestriction r ≠ none) :
    customizeDiffSchedule layers ≠ none := by
  intro hnone
  exact hr (List.findSome?_eq_none_iff.mp hnone r hmem)

/-- C6: before any remote call, a `daily_restriction` with
`duration_seconds ≥ 86400` is rejected (in particular `86400` is and
`86399` is not), a `daily_restriction` with nonzero `start_day_of_week`
is rejected, and a `weekly_restriction` passes the check whatever its
`start_day_of_week`, in particular for values `1..7`. -/
theorem validateScheduleRestriction_spec (r : Restriction) :
    (r.type = "daily_restriction" → r.durationSeconds ≥ 86400 →
      validateScheduleRestriction r ≠ none) ∧
    (r.type = "daily_restriction" → r.startDayOfWeek ≠ 0 →
      validateScheduleRestriction r ≠ none) ∧
    (r.type = "daily_restriction" → r.startDayOfWeek = 0 →
      r.durationSeconds < 86400 → validateScheduleRestriction r = none) ∧
    (r.type = "weekly_restriction" → validateScheduleRestriction r = none) := by
  refine ⟨fun ht hd => ?_, fun ht hs => ?_, fun ht hs hd => ?_, fun ht => ?_⟩
  · by_cases hs : r.startDayOfWeek = 0
    · simp [validateScheduleRestriction, ht, hs]
      omega
    · simp [validateScheduleRestriction, ht, hs]
  · simp [validateScheduleRestriction, ht, hs]
  · simp [validateScheduleRestriction, ht, hs]
    omega
  · simp [validateScheduleRestriction, ht]

/-- A daily restriction lasting a whole day (rejected boundary). -/
def dailyFullDayRestriction : Restriction :=
  { type := "daily_restriction"
    startTimeOfDay := "00:00:00"
    startDayOfWeek := 0
    durationSeconds := 86400 }

/-- A daily restriction lasting one second less than a day (accepted). -/
def dailyAlmostDayRestriction : Restriction :=
  { type := "daily_restriction"
    startTimeOfDay := "00:00:00"
    startDayOfWeek := 0
    durationSeconds := 86399 }

/-- A daily restriction with a nonzero start day (rejected). -/
def dailyWithDayRestriction : Restriction :=
  { type := "daily_restriction"
    startTimeOfDay := "00:00:00"
    startDayOfWeek := 2
    durationSeconds := 600 }

/-- A weekly restriction starting on day 3 (accepted). -/
def weeklyDay3Restriction : Restriction :=
  { type := "weekly_restriction"
    startTimeOfDay := "00:00:00"
    startDayOfWeek := 3
    durationSeconds := 600 }

/-- Witness for C6: `86400` rejected, `86399` accepted, nonzero
`start_day_of_week` on a daily restriction rejected, weekly with day 3
accepted — through the whole `CustomizeDiff` configuration check where
applicable. -/
theorem validateScheduleRestriction_spec_witness :
    customizeDiffSchedule [[dailyFullDayRestriction]] ≠ none ∧
    validateScheduleRestriction dailyAlmostDayRestriction = none ∧
    customizeDiffSchedule [[dailyWithDayRestriction]] ≠ none ∧
    validateScheduleRestriction weeklyDay3Restriction = none := by
  refine ⟨customizeDiffSchedule_rejects (by simp)
      ((validateScheduleRestriction_spec dailyFullDayRestriction).1 rfl (by decide)),
    (validateScheduleRestriction_spec dailyAlmostDayRestriction).2.2.1 rfl rfl (by decide),
    customizeDiffSchedule_rejects (by simp)
      ((validateScheduleRestriction_spec dailyWithDayRestriction).2.1 rfl (by decide)),
    (validateScheduleRestriction_spec weeklyDay3Restriction).2.2.2 rfl⟩

/-- `pagerduty.TeamReference`. -/
structure TeamReference where
  id : String
  type : String
deriving DecidableEq

/-- `pagerduty.SubSchedule` (the `final_schedule` document). -/
structure SubSchedule where
  name : String
  renderedCoveragePercentage : Int
deriving DecidableEq

/-- The remote schedule document as read. `finalSchedule` models the
`FinalSchedule *pagerduty.SubSchedule`-style field: `none` is a nil
pointer (the remote response carried no `final_schedule`);
`escalationPolicies` the identifiers listed on the document. -/
structure Schedule where
  id : String
  name : String
  timeZone : String
  description : String
  scheduleLayers : List ScheduleLayer
  teams : List TeamReference
  finalSchedule : Option SubSchedule
  escalationPolicies : List String
deriving DecidableEq

/-- `flattenScheFinalSchedule` (lines 575–583): it always builds exactly
one map from `finalSche.Name` and the rendered coverage, dereferencing
`finalSche` unconditionally — on a nil pointer the dereference panics,
modelled as `none`. -/
def flattenScheFinalSchedule (finalSche : Option SubSchedule) :
    Option (List (List (String × FlatValue))) :=
  match finalSche with
  | none => none
  | some fs =>
    some [[("name", FlatValue.str fs.name),
           ("rendered_coverage_percentage",
             FlatValue.str (renderRoundedPercentage fs.renderedCoveragePercentage))]]

/-- Line 274: the read path passes `schedule.FinalSchedule` straight to
`flattenScheFinalSchedule` with no nil check. -/
def readFinalScheduleStep (s : Schedule) :
    Option (List (List (String × FlatValue))) :=
  flattenScheFinalSchedule s.finalSchedule

/-- C10: on a present `final_schedule` the flatten helper returns
exactly one element; on a nil `final_schedule` it (and hence the read
path feeding it at line 274) dereferences nil — the function is total
only under the precondition that the document carries a
`final_schedule`. -/
theorem flattenScheFinalSchedule_spec :
    (∀ fs : SubSchedule, ∃ m, flattenScheFinalSchedule (some fs) = some [m]) ∧
    flattenScheFinalSchedule none = none ∧
    ∀ s : Schedule, s.finalSchedule = none → readFinalScheduleStep s = none := by
  refine ⟨fun fs => ⟨_, rfl⟩, rfl, fun s h => ?_⟩
  simp [readFinalScheduleStep, h, flattenScheFinalSchedule]

/-- Witness for C10: a concrete document without `final_schedule` makes
the read path panic (`none`), and a concrete present one yields a
single-element list. -/
theorem flattenScheFinalSchedule_spec_witness :
    readFinalScheduleStep
      { id := "S1", name := "s", timeZone := "UTC", description := "d",
        scheduleLayers := [], teams := [], finalSchedule := none,
        escalationPolicies := [] } = none :=
  flattenScheFinalSchedule_spec.2.2 _ rfl

/-- `pagerduty.Incident` restricted to what the scan consumes. -/
structure Incident where
  htmlURL : String
deriving DecidableEq

/-- The options passed to `Incidents.ListAll` at lines 607–611. -/
structure ListIncidentsOptions where
  dateRange : String
  statuses : List String
  teamIDs : List String
deriving DecidableEq

/-- `listIncidentsOpenedRelatedToSchedule` (lines 585–623).  The two
`resource.Retry` loops are collapsed to their final outcomes, passed in
as `getScheduleResult` (the schedule fetch) and `listAllResult` (the
incident listing, `Except.error` when every attempt failed until the
10-second deadline).  The first retry error is returned (lines 596–598);
the second is bound to `retryErr` but the function nevertheless returns
`(linksToIncidents, nil)` (line 622), so a listing failure yields an
empty link list and no error. -/
def listIncidentsOpenedRelatedToSchedule
    (getScheduleResult : Except String Schedule)
    (listAllResult : ListIncidentsOptions → Except String (List Incident)) :
    Except String (List String) :=
  match getScheduleResult with
  | .error retryErr => .error retryErr
  | .ok s =>
    let teams := s.teams.map (fun t => t.id)
    let opts : ListIncidentsOptions :=
      { dateRange := "all", statuses := ["triggered", "acknowledged"], teamIDs := teams }
    match listAllResult opts with
    | .error _ => .ok []
    | .ok incidents => .ok (incidents.map (fun inc => inc.htmlURL))

/-- C9: when the schedule fetch succeeds but the incident listing fails
until its retry deadline, the scan returns a nil error and an empty
incident list — the listing retry error is discarded, so deletion
proceeds as if no open incidents existed. -/
theorem listIncidentsOpenedRelatedToSchedule_drops_listing_error
    (s : Schedule) (listAllResult : ListIncidentsOptions → Except String (List Incident))
    (h : ∀ opts : ListIncidentsOptions, ∃ e, listAllResult opts = .error e) :
    listIncidentsOpenedRelatedToSchedule (.ok s) listAllResult = .ok [] := by
  obtain ⟨e, he⟩ := h
    { dateRange := "all", statuses := ["triggered", "acknowledged"],
      teamIDs := s.teams.map (fun t => t.id) }
  simp [listIncidentsOpenedRelatedToSchedule, he]

/-- Witness for C9 at a concrete schedule and an always-failing listing. -/
theorem listIncidentsOpenedRelatedToSchedule_drops_listing_error_witness :
    listIncidentsOpenedRelatedToSchedule
      (.ok { id := "S1", name := "s", timeZone := "UTC", description := "d",
             scheduleLayers := [], teams := [⟨"T1", "team_reference"⟩],
             finalSchedule := none, escalationPolicies := [] })
      (fun _ => .error "deadline elapsed") = .ok [] :=
  listIncidentsOpenedRelatedToSchedule_drops_listing_error _ _
    (fun _ => ⟨"deadline elapsed", rfl⟩)

/-- Lines 387–390: the open-incident URLs are folded into one message,
each prefixed with a newline
(`urlLinksMessage = fmt.Sprintf("%s\n%s", urlLinksMessage, incident)`). -/
def buildUrlLinksMessage (links : List String) : String :=
  links.foldl (fun acc incident => acc ++ "\n" ++ incident) ""

/-- Go's `%q` on the schedule identifier: wrapping in double quotes
(PagerDuty identifiers contain no characters that `%q` escapes). -/
def goQuote (s : String) : String := "\"" ++ s ++ "\""

/-- The blocking error text of line 391. -/
def blockedByIncidentsMessage (scheduleId : String) (links : List String) : String :=
  "Before Removing Schedule " ++ goQuote scheduleId ++
    " You must first resolve the following incidents related with Escalation Policies using this Schedule... " ++
    buildUrlLinksMessage links

/-- Result of the open-incident gate at lines 386–392: whether control
reaches the remote delete retry loop (line 396), and the error returned
when it does not. -/
structure DeleteGateOutcome where
  deleteAttempted : Bool
  blockedError : Option String
deriving DecidableEq

/-- Lines 386–392: with any open incident the delete returns the
blocking error straight away; only otherwise does the flow continue to
`client.Schedules.Delete`. -/
def scheduleDeleteIncidentGate (scheduleId : String) (links : List String) :
    DeleteGateOutcome :=
  if links.length > 0 then
    { deleteAttempted := false
      blockedError := some (blockedByIncidentsMessage scheduleId links) }
  else
    { deleteAttempted := true, blockedError := none }

/-- The accumulator of the URL fold stays an infix of the final
message. -/
theorem buildUrlLinks_acc_occurs (links : List String) :
    ∀ acc : String,
      acc.data <:+:
        (links.foldl (fun a incident => a ++ "\n" ++ incident) acc).data := by
  induction links with
  | nil => intro acc; exact List.infix_refl _
  | cons x xs ih =>
    intro acc
    rw [List.foldl_cons]
    refine List.IsInfix.trans ?_ (ih (acc ++ "\n" ++ x))
    exact ⟨[], ("\n" ++ x).data, by simp⟩

/-- Every listed URL occurs inside the folded message. -/
theorem buildUrlLinks_mem_occurs (links : List String) :
    ∀ (acc u : String), u ∈ links →
      u.data <:+:
        (links.foldl (fun a incident => a ++ "\n" ++ incident) acc).data := by
  induction links with
  | nil => intro acc u h; cases h
  | cons x xs ih =>
    intro acc u h
    rw [List.foldl_cons]
    rcases List.mem_cons.mp h with rfl | h2
    · refine List.IsInfix.trans ?_ (buildUrlLinks_acc_occurs xs (acc ++ "\n" ++ u))
      exact ⟨(acc ++ "\n").data, [], by simp⟩
    · exact ih _ u h2

/-- C4: when the dependency scan finds at least one open incident, the
delete flow stops before the remote delete call and returns an error
message in which every found incident URL occurs. -/
theorem scheduleDeleteIncidentGate_spec (scheduleId : String) (links : List String)
    (h : 0 < links.length) :
    (scheduleDeleteIncidentGate scheduleId links).deleteAttempted = false ∧
    (scheduleDeleteIncidentGate scheduleId links).blockedError =
      some (blockedByIncidentsMessage scheduleId links) ∧
    ∀ u ∈ links, u.data <:+: (blockedByIncidentsMessage scheduleId links).data := by
  refine ⟨by simp [scheduleDeleteIncidentGate, h], by simp [scheduleDeleteIncidentGate, h],
    fun u hu => ?_⟩
  have h1 : u.data <:+: (buildUrlLinksMessage links).data :=
    buildUrlLinks_mem_occurs links "" u hu
  obtain ⟨s, t, hst⟩ := h1
  refine ⟨("Before Removing Schedule " ++ goQuote scheduleId ++
    " You must first resolve the following incidents related with Escalation Policies using this Schedule... ").data ++ s,
    t, ?_⟩
  simp only [blockedByIncidentsMessage, String.data_append, List.append_assoc]
  rw [← hst]
  simp [List.append_assoc]

/-- Witness for C4 at two concrete incident URLs. -/
theorem scheduleDeleteIncidentGate_spec_witness :
    (scheduleDeleteIncidentGate "SCHED1"
        ["https://acme.pagerduty.com/incidents/I1",
         "https://acme.pagerduty.com/incidents/I2"]).deleteAttempted = false ∧
    "https://acme.pagerduty.com/incidents/I2".data <:+:
      (blockedByIncidentsMessage "SCHED1"
        ["https://acme.pagerduty.com/incidents/I1",
         "https://acme.pagerduty.com/incidents/I2"]).data :=
  ⟨(scheduleDeleteIncidentGate_spec "SCHED1" _ (by decide)).1,
   (scheduleDeleteIncidentGate_spec "SCHED1" _ (by decide)).2.2 _ (by simp)⟩

/-- Kind of remote operation a call site performs. -/
inductive RemoteCallKind where
  | lookup
  | create
  | update
  | delete
deriving DecidableEq

/-- One remote call site of the resource: whether it sits inside a
`resource.Retry` wrapper and, when it does, the wrapper's deadline in
seconds. `none` means the call is issued once with no retry loop. -/
structure RemoteCallSite where
  description : String
  kind : RemoteCallKind
  retryDeadlineSeconds : Option Nat
deriving DecidableEq

/-- Line 236: `client.Schedules.Create` is called directly, with no
`resource.Retry` wrapper. -/
def scheduleCreateCallSite : RemoteCallSite :=
  { description := "Schedules.Create in resourcePagerDutyScheduleCreate"
    kind := .create
    retryDeadlineSeconds := none }

/-- Line 254: `resource.Retry(30*time.Second, ...)` around
`client.Schedules.Get` in the read. -/
def scheduleReadCallSite : RemoteCallSite :=
  { description := "Schedules.Get in resourcePagerDutyScheduleRead"
    kind := .lookup
    retryDeadlineSeconds := some 30 }

/-- Line 349: `resource.Retry(2*time.Minute, ...)` around
`client.Schedules.Update`. -/
def scheduleUpdateCallSite : RemoteCallSite :=
  { description := "Schedules.Update in resourcePagerDutyScheduleUpdate"
    kind := .update
    retryDeadlineSeconds := some 120 }

/-- Line 396: `resource.Retry(2*time.Minute, ...)` around
`client.Schedules.Delete`. -/
def scheduleDeleteCallSite : RemoteCallSite :=
  { description := "Schedules.Delete in resourcePagerDutyScheduleDelete"
    kind := .delete
    retryDeadlineSeconds := some 120 }

/-- Line 587: `resource.Retry(10*time.Second, ...)` around
`Schedules.Get` in the incident scan. -/
def incidentScanScheduleGetCallSite : RemoteCallSite :=
  { description := "Schedules.Get in listIncidentsOpenedRelatedToSchedule"
    kind := .lookup
    retryDeadlineSeconds := some 10 }

/-- Line 606: `resource.Retry(10*time.Second, ...)` around
`Incidents.ListAll`. -/
def incidentScanListAllCallSite : RemoteCallSite :=
  { description := "Incidents.ListAll in listIncidentsOpenedRelatedToSchedule"
    kind := .lookup
    retryDeadlineSeconds := some 10 }

/-- Line 627: `resource.Retry(10*time.Second, ...)` around
`Schedules.Get` in the escalation-policy scan. -/
def epScanScheduleGetCallSite : RemoteCallSite :=
  { description := "Schedules.Get in extractEPsAssociatedToSchedule"
    kind := .lookup
    retryDeadlineSeconds := some 10 }

/-- Line 652: `resource.Retry(10*time.Second, ...)` around
`EscalationPolicies.Get` in the dissociation. -/
def epGetCallSite : RemoteCallSite :=
  { description := "EscalationPolicies.Get in dissociateScheduleFromEPs"
    kind := .lookup
    retryDeadlineSeconds := some 10 }

/-- Line 707: `resource.Retry(10*time.Second, ...)` around
`EscalationPolicies.Update` in the compensation. -/
def epUpdateCallSite : RemoteCallSite :=
  { description := "EscalationPolicies.Update in removeScheduleFromEP"
    kind := .update
    retryDeadlineSeconds := some 10 }

/-- Every remote call site of `resource_pagerduty_schedule.go`. -/
def remoteCallSites : List RemoteCallSite :=
  [scheduleCreateCallSite, scheduleReadCallSite, scheduleUpdateCallSite,
   scheduleDeleteCallSite, incidentScanScheduleGetCallSite,
   incidentScanListAllCallSite, epScanScheduleGetCallSite, epGetCallSite,
   epUpdateCallSite]

/-- C7 counterexample: the schedule read is a lookup wrapped with a
30-second deadline, not the claimed 10 seconds (and the create call has
no retry wrapper at all), so the claimed uniform deadlines are wrong. -/
theorem remoteCallSites_claimed_deadlines_false :
    (scheduleReadCallSite ∈ remoteCallSites ∧
      scheduleReadCallSite.kind = .lookup ∧
      scheduleReadCallSite.retryDeadlineSeconds ≠ some 10) ∧
    (scheduleCreateCallSite ∈ remoteCallSites ∧
      scheduleCreateCallSite.retryDeadlineSeconds = none) := by
  refine ⟨⟨by simp [remoteCallSites], rfl, by decide⟩,
    ⟨by simp [remoteCallSites], rfl⟩⟩

/-- C7 (amended): every remote call except schedule creation sits in a
bounded retry wrapper; the deadline is 10 seconds for every lookup
except the schedule read, which uses 30 seconds; 2 minutes for the
schedule update and the schedule delete; and 10 seconds for the
escalation-policy update performed during compensation.  Schedule
creation is a single unretried call. -/
theorem remoteCallSites_retry_deadlines (site : RemoteCallSite)
    (hmem : site ∈ remoteCallSites) :
    (site.kind = .create → site.retryDeadlineSeconds = none) ∧
    (site.kind ≠ .create → site.retryDeadlineSeconds ≠ none) ∧
    (site.kind = .lookup →
      site.retryDeadlineSeconds =
        some (if site = scheduleReadCallSite then 30 else 10)) ∧
    (site.kind = .delete → site.retryDeadlineSeconds = some 120) ∧
    (site.kind = .update →
      site.retryDeadlineSeconds =
        some (if site = epUpdateCallSite then 10 else 120)) := by
  fin_cases hmem <;> simp [scheduleCreateCallSite, scheduleReadCallSite,
    scheduleUpdateCallSite, scheduleDeleteCallSite, incidentScanScheduleGetCallSite,
    incidentScanListAllCallSite, epScanScheduleGetCallSite, epGetCallSite,
    epUpdateCallSite]

/-- Witness for C7 at the schedule delete site. -/
theorem remoteCallSites_retry_deadlines_witness :
    scheduleDeleteCallSite.retryDeadlineSeconds = some 120 :=
  (remoteCallSites_retry_deadlines scheduleDeleteCallSite
    (by simp [remoteCallSites])).2.2.2.1 rfl

/-- `pagerduty.EscalationTargetReference`. -/
structure EscalationTargetReference where
  type : String
  id : String
deriving DecidableEq

/-- `pagerduty.EscalationRule`, restricted to the target list that
`removeScheduleFromEP` manipulates. -/
structure EscalationRule where
  targets : List EscalationTargetReference
deriving DecidableEq

/-- A Go slice: the full underlying array together with the slice's
current length.  Capacity equals the array length in this model, which
is adequate because `removeScheduleFromEP` only shrinks slices in
place. -/
structure GoSlice (α : Type) where
  arr : List α
  len : Nat
deriving DecidableEq

/-- The in-place removal idiom `s = append(s[:i], s[i+1:]...)`: the
simple slice expression `s[i+1:]` panics when `i+1 > len(s)` (modelled
as `none`); otherwise `append` reuses the array of `s[:i]` (enough
capacity), shifting elements `i+1 .. len-1` one slot left inside the
same underlying array, so positions from `len-1` on keep their old
values and the result has length `len-1`. -/
def goRemoveAt {α : Type} (s : GoSlice α) (i : Nat) : Option (GoSlice α) :=
  if i + 1 > s.len then none
  else some
    { arr := s.arr.take i ++ ((s.arr.drop (i + 1)).take (s.len - 1 - i)) ++
        s.arr.drop (s.len - 1)
      len := s.len - 1 }

/-- Mutable state of `removeScheduleFromEP`.  Escalation rules are held
by pointer in `go-pagerduty` (`[]*EscalationRule`, matching the
pointer-slice style of every other payload type in the package), so a
rule is an index `rid` into `store`, which holds each rule's live
target slice; `epr` is the live rule slice of line 681.  Both `range`
loops iterate over headers captured at loop entry — fixed iteration
count, but element reads go through the (shared, mutated) underlying
arrays. -/
structure RemoveEPState where
  store : List (GoSlice EscalationTargetReference)
  epr : GoSlice Nat
  needsToUpdate : Bool
deriving DecidableEq

/-- One iteration of the inner loop (lines 683–700) for the rule at
store index `rid` and outer range index `ri`: read the target at
`index` from the rule's current underlying array; on a
`schedule_reference` match of the schedule being deleted, remove the
target in place when the rule currently holds more than one target,
otherwise drop the whole rule from `epr` in place.  `none` is a Go
panic. -/
def removeScheduleInnerStep (scheduleID : String) (rid ri : Nat)
    (st : RemoveEPState) (index : Nat) : Option RemoveEPState :=
  let tslice := st.store.getD rid ⟨[], 0⟩
  match tslice.arr.get? index with
  | none => some st
  | some target =>
    if target.type == "schedule_reference" && target.id == scheduleID then
      if tslice.len > 1 then
        match goRemoveAt tslice index with
        | none => none
        | some t2 =>
          some { st with store := st.store.set rid t2, needsToUpdate := true }
      else
        match goRemoveAt st.epr ri with
        | none => none
        | some e2 => some { st with epr := e2, needsToUpdate := true }
    else some st

/-- One iteration of the outer loop (line 682): read the rule pointer
at `ri` from the current `epr` array, then run the inner loop over the
inner range header captured now (the rule's current target count). -/
def removeScheduleOuterStep (scheduleID : String) (st : RemoveEPState) (ri : Nat) :
    Option RemoveEPState :=
  match st.epr.arr.get? ri with
  | none => some st
  | some rid =>
    (List.range (st.store.getD rid ⟨[], 0⟩).len).foldlM
      (removeScheduleInnerStep scheduleID rid ri) st

/-- `removeScheduleFromEP` (lines 679–719) acting on the rules of one
escalation policy: `none` on a Go panic, otherwise whether
`EscalationPolicies.Update` is called (`needsToUpdate`, lines 702–708)
together with the written-back rules (`ep.EscalationRules = epr`,
line 705, each rule read through its live target slice). -/
def removeScheduleFromEP (scheduleID : String) (rules : List EscalationRule) :
    Option (Bool × List EscalationRule) :=
  let st0 : RemoveEPState :=
    { store := rules.map (fun r => ⟨r.targets, r.targets.length⟩)
      epr := ⟨List.range rules.length, rules.length⟩
      needsToUpdate := false }
  match (List.range rules.length).foldlM (removeScheduleOuterStep scheduleID) st0 with
  | none => none
  | some st =>
    some (st.needsToUpdate,
      (st.epr.arr.take st.epr.len).map (fun rid =>
        ⟨(st.store.getD rid ⟨[], 0⟩).arr.take (st.store.getD rid ⟨[], 0⟩).len⟩))

/-- A rule with two adjacent targets referencing the schedule being
deleted, followed by a user target. -/
def ruleWithDuplicateScheduleTargets : EscalationRule :=
  ⟨[⟨"schedule_reference", "SCHED1"⟩, ⟨"schedule_reference", "SCHED1"⟩,
    ⟨"user_reference", "USER1"⟩]⟩

/-- A rule whose only target references the schedule being deleted. -/
def ruleWithSoleScheduleTarget : EscalationRule :=
  ⟨[⟨"schedule_reference", "SCHED1"⟩]⟩

/-- C5: evaluating `removeScheduleFromEP` at the failing inputs.  The
code removes slice elements in place while ranging over the slice, so
(1) on a rule targeting the schedule twice in adjacent positions it
skips the second occurrence and writes the policy back with a
`schedule_reference` target still present, and (2) on two rules that
each hold the schedule as their only target it panics re-slicing the
already-shortened rule slice — in both cases it fails to remove every
matching target as the claim states. -/
theorem removeScheduleFromEP_failing_inputs :
    removeScheduleFromEP "SCHED1" [ruleWithDuplicateScheduleTargets] =
      some (true,
        [⟨[⟨"schedule_reference", "SCHED1"⟩, ⟨"user_reference", "USER1"⟩]⟩]) ∧
    removeScheduleFromEP "SCHED1"
        [ruleWithSoleScheduleTarget, ruleWithSoleScheduleTarget] = none :=
  ⟨rfl, rfl⟩

end PagerdutySchedule
